import Mathlib

/-!
Shallow embedding of the API-gateway core of the SAI repository:
the billing middleware, billing service and rate-limit service of
`Use_Case_III/VoltagePredictor/api`, and the auth service of
`Use_Case_III/CreditScorer/api`.

Modelling conventions:
* timestamps are `Nat` (seconds since epoch);
* token amounts (Python floats) are `Rat`;
* the transactional relational store is an explicit `Db` record threaded
  through every operation; a SQLAlchemy mutation of a fetched row is
  modelled by replacing the first matching element of the table list;
* `hashlib.sha256(...).hexdigest()` is an abstract parameter
  `sha : String → String`;
* Python truthiness of `Optional[int]` / `Optional[str]` / parsed JSON is
  modelled explicitly (`truthyOptNat`, `truthyOptStr`, `jsonTruthy`).
-/

namespace SAI

/-- Replace the first element satisfying `p` by its image under `f`
(models an ORM mutating the first row returned by a filtered query). -/
def updateFirst (p : α → Bool) (f : α → α) : List α → List α
  | [] => []
  | x :: xs => if p x then f x :: xs else x :: updateFirst p f xs

/-- `models.User` (billing-relevant columns). -/
structure User where
  user_id : String
  username : String
  is_active : Bool
  token_balance : Rat
  total_tokens_purchased : Rat
  total_tokens_used : Rat
  requests_per_minute : Nat
  requests_per_hour : Nat
  requests_per_day : Nat
deriving Repr, DecidableEq

/-- `models.APIKey`. -/
structure APIKey where
  id : Nat
  hashed_key : String
  user_id : String
  name : String
  created_at : Nat
  expires_at : Option Nat
  is_active : Bool
  last_used : Option Nat
  requests_per_minute : Option Nat
  requests_per_hour : Option Nat
  requests_per_day : Option Nat
deriving Repr, DecidableEq

/-- `models.APIUsage` (append-only usage ledger row). -/
structure APIUsage where
  user_id : String
  api_key_id : Option Nat
  endpoint : String
  timestamp : Nat
  tokens_consumed : Rat
  request_size : Nat
  success : Bool
  error_message : Option String
deriving Repr, DecidableEq

/-- `models.TokenTransaction` (append-only transaction ledger row). -/
structure TokenTransaction where
  user_id : String
  transaction_type : String
  amount : Rat
  previous_balance : Rat
  new_balance : Rat
  timestamp : Nat
  description : String
  reference_id : Option String
deriving Repr, DecidableEq

/-- The transactional store: the four tables the claims touch. -/
structure Db where
  users : List User
  apiKeys : List APIKey
  apiUsage : List APIUsage
  tokenTransactions : List TokenTransaction
deriving Repr, DecidableEq

/-- Python truthiness of an `Optional[int]` (`None` and `0` are falsy). -/
def truthyOptNat : Option Nat → Bool
  | none => false
  | some n => n != 0

/-- Python truthiness of an `Optional[str]` (`None` and `""` are falsy). -/
def truthyOptStr : Option String → Bool
  | none => false
  | some s => s != ""

/-! ### BillingService (`VoltagePredictor/api/services/billing_service.py`) -/

/-- `BillingService.get_user`: first user row with the given `user_id`. -/
def getUser (user_id : String) (db : Db) : Option User :=
  db.users.find? (fun u => u.user_id == user_id)

/-- `BillingService.get_user_balance`. -/
def getUserBalance (user_id : String) (db : Db) : Option Rat :=
  (getUser user_id db).map (fun u => u.token_balance)

/-- `BillingService.check_sufficient_balance`:
`balance is not None and balance >= required_tokens`. -/
def checkSufficientBalance (user_id : String) (required_tokens : Rat) (db : Db) : Bool :=
  match getUserBalance user_id db with
  | some b => required_tokens ≤ b
  | none => false

/-- The `reference_id` string `f"{api_key_id}_{endpoint}_{utcnow().isoformat()}"`
built by `consume_tokens`. -/
def refId (api_key_id : Option Nat) (endpoint : String) (now : Nat) : String :=
  (match api_key_id with
   | some n => toString n
   | none => "None") ++ "_" ++ endpoint ++ "_" ++ toString now

/-- `BillingService.consume_tokens`.  `requestSize` stands for
`len(str(request_data))`, which the claims never inspect. -/
def consumeTokens (user_id : String) (api_key_id : Option Nat) (endpoint : String)
    (tokens_consumed : Rat) (requestSize : Nat) (now : Nat) (db : Db) : Bool × Db :=
  match getUser user_id db with
  | none => (false, db)
  | some user =>
    if user.token_balance < tokens_consumed then (false, db)
    else
      let previous_balance := user.token_balance
      let user' := { user with
        token_balance := user.token_balance - tokens_consumed,
        total_tokens_used := user.total_tokens_used + tokens_consumed }
      let txn : TokenTransaction :=
        { user_id := user_id
          transaction_type := "usage"
          amount := -tokens_consumed
          previous_balance := previous_balance
          new_balance := user'.token_balance
          timestamp := now
          description := "API call to " ++ endpoint
          reference_id := some (refId api_key_id endpoint now) }
      let usage : APIUsage :=
        { user_id := user_id
          api_key_id := api_key_id
          endpoint := endpoint
          timestamp := now
          tokens_consumed := tokens_consumed
          request_size := requestSize
          success := true
          error_message := none }
      (true,
        { db with
          users := updateFirst (fun u => u.user_id == user_id) (fun _ => user') db.users
          tokenTransactions := db.tokenTransactions ++ [txn]
          apiUsage := db.apiUsage ++ [usage] })

/-- `BillingService.add_tokens`. -/
def addTokens (user_id : String) (transaction_id : String) (amount : Rat)
    (transaction_type : String) (description : String) (now : Nat) (db : Db) : Bool × Db :=
  match getUser user_id db with
  | none => (false, db)
  | some user =>
    let previous_balance := user.token_balance
    let user' := { user with
      token_balance := user.token_balance + amount,
      total_tokens_purchased :=
        if transaction_type == "purchase" then user.total_tokens_purchased + amount
        else user.total_tokens_purchased }
    let txn : TokenTransaction :=
      { user_id := user_id
        transaction_type := transaction_type
        amount := amount
        previous_balance := previous_balance
        new_balance := user'.token_balance
        timestamp := now
        description := description
        reference_id := some transaction_id }
    (true,
      { db with
        users := updateFirst (fun u => u.user_id == user_id) (fun _ => user') db.users
        tokenTransactions := db.tokenTransactions ++ [txn] })

/-- Sum of `tokens_consumed` over usage rows (`sum(item.tokens_consumed ...)`). -/
def sumTokens (rows : List APIUsage) : Rat :=
  rows.foldl (fun s r => s + r.tokens_consumed) 0

/-- Distinct endpoints of a row list, in order of first appearance
(models the SQL `GROUP BY endpoint` key set). -/
def distinctEndpoints (rows : List APIUsage) : List String :=
  rows.foldl (fun es r => if es.contains r.endpoint then es else es ++ [r.endpoint]) []

/-- One `endpoint_breakdown` entry per distinct endpoint: requests and tokens. -/
def endpointBreakdown (rows : List APIUsage) : List (String × Nat × Rat) :=
  (distinctEndpoints rows).map (fun e =>
    (e, (rows.filter (fun r => r.endpoint == e)).length,
     sumTokens (rows.filter (fun r => r.endpoint == e))))

/-- Result record of `BillingService.get_usage_stats`. -/
structure UsageStats where
  period_days : Nat
  current_balance : Rat
  total_requests : Nat
  total_tokens_consumed : Rat
  endpoint_breakdown : List (String × Nat × Rat)
deriving Repr, DecidableEq

/-- `BillingService.get_usage_stats`: both queries filter only on
`user_id` and `timestamp >= since` (`since = utcnow() - timedelta(days=days)`). -/
def getUsageStats (user_id : String) (days : Nat) (now : Nat) (db : Db) : UsageStats :=
  let since := now - days * 86400
  let usage_query := db.apiUsage.filter
    (fun r => r.user_id == user_id && since ≤ r.timestamp)
  { period_days := days
    current_balance := match getUser user_id db with
      | some u => u.token_balance
      | none => 0
    total_requests := usage_query.length
    total_tokens_consumed := sumTokens usage_query
    endpoint_breakdown := endpointBreakdown
      (db.apiUsage.filter (fun r => r.user_id == user_id && since ≤ r.timestamp)) }

/-! ### RateLimitService (`VoltagePredictor/api/services/rate_limit_service.py`) -/

/-- `RateLimitService._get_api_key`. -/
def lookupApiKey (api_key_id : Nat) (db : Db) : Option APIKey :=
  db.apiKeys.find? (fun k => k.id == api_key_id)

/-- `RateLimitService._get_request_count`: successful usage rows of the user
since `since`, additionally filtered by key when `api_key_id` is truthy. -/
def getRequestCount (user_id : String) (api_key_id : Option Nat) (since : Nat) (db : Db) : Nat :=
  let base := db.apiUsage.filter
    (fun r => r.user_id == user_id && since ≤ r.timestamp && r.success)
  let rows := if truthyOptNat api_key_id
    then base.filter (fun r => r.api_key_id == api_key_id) else base
  rows.length

/-- Result record of `RateLimitService.check_rate_limit` (diagnostic usage
strings omitted; no claim inspects them). -/
structure RateLimitResult where
  allowed : Bool
  reason : Option String
  limit_exceeded : Option String
  current_count : Option Nat
  limit : Option Nat
deriving Repr, DecidableEq

/-- The key fetched by `check_rate_limit` (`if api_key_id:` is truthiness). -/
def apiKeyFor (api_key_id : Option Nat) (db : Db) : Option APIKey :=
  match api_key_id with
  | some k => if k != 0 then lookupApiKey k db else none
  | none => none

/-- The limit expression
`api_key.requests_per_minute if api_key and api_key.requests_per_minute else user.requests_per_minute`:
the override applies only when the key is present and the override truthy. -/
def effectiveLimit (api_key : Option APIKey) (override : APIKey → Option Nat)
    (dflt : Nat) : Nat :=
  match api_key with
  | some k =>
    match override k with
    | some n => if n != 0 then n else dflt
    | none => dflt
  | none => dflt

/-- The three `(name, limit, duration)` windows of `check_rate_limit`,
in the dict order the loop visits them. -/
def windowSpecs (user : User) (api_key : Option APIKey) : List (String × Nat × Nat) :=
  [("minute", effectiveLimit api_key (fun k => k.requests_per_minute) user.requests_per_minute, 60),
   ("hour", effectiveLimit api_key (fun k => k.requests_per_hour) user.requests_per_hour, 3600),
   ("day", effectiveLimit api_key (fun k => k.requests_per_day) user.requests_per_day, 86400)]

/-- The window loop of `check_rate_limit`: breaks on the first window where
`request_count >= limit`. -/
def checkWindows (user_id : String) (api_key_id : Option Nat) (now : Nat) (db : Db) :
    List (String × Nat × Nat) → RateLimitResult
  | [] =>
    { allowed := true, reason := none, limit_exceeded := none
      current_count := none, limit := none }
  | (wname, wlimit, wduration) :: rest =>
    let window_start := now - wduration
    let request_count := getRequestCount user_id api_key_id window_start db
    if wlimit ≤ request_count then
      { allowed := false, reason := none, limit_exceeded := some wname
        current_count := some request_count, limit := some wlimit }
    else
      checkWindows user_id api_key_id now db rest

/-- `RateLimitService.check_rate_limit`. -/
def checkRateLimit (user_id : String) (api_key_id : Option Nat) (now : Nat)
    (db : Db) : RateLimitResult :=
  match getUser user_id db with
  | none =>
    { allowed := false, reason := some "User not found", limit_exceeded := none
      current_count := none, limit := none }
  | some user =>
    checkWindows user_id api_key_id now db (windowSpecs user (apiKeyFor api_key_id db))

/-! ### Billing middleware (`VoltagePredictor/api/middleware/billing_middleware.py`) -/

/-- Parsed JSON bodies (`json.loads` output). -/
inductive Json where
  | null
  | bool (b : Bool)
  | num (q : Rat)
  | str (s : String)
  | arr (elems : List Json)
  | obj (fields : List (String × Json))

/-- Python truthiness of a parsed JSON value. -/
def jsonTruthy : Json → Bool
  | .null => false
  | .bool b => b
  | .num q => q != 0
  | .str s => s != ""
  | .arr elems => !elems.isEmpty
  | .obj fields => !fields.isEmpty

/-- The middleware's `protected_paths` default. -/
def protectedPaths : List String := ["/api/"]

/-- The middleware's `excluded_paths` default. -/
def excludedPaths : List String :=
  ["/auth/", "/billing/", "/docs", "/redoc", "/openapi.json",
   "/favicon.ico", "/health", "/status"]

/-- `str.startswith`, computed on the character lists. -/
def strStartsWith (s pre : String) : Bool :=
  pre.data.isPrefixOf s.data

/-- `BillingMiddleware._requires_billing`. -/
def requiresBilling (path : String) : Bool :=
  if excludedPaths.any (fun e => strStartsWith path e) then false
  else protectedPaths.any (fun p => strStartsWith path p)

/-- The middleware's hard-coded `cost_map`. -/
def costMap : List (String × Rat) := [("/api/peak-voltages", 1)]

set_option linter.unusedVariables false in
/-- `BillingMiddleware._calculate_endpoint_cost`: base cost from `cost_map`
(default 1.0), multiplied by `len(data)` for a truthy dict body with a
`data` list on the batch path.  `method` is accepted and unused, as in the
source. -/
def calculateEndpointCost (path : String) (method : String) (request_body : Option Json) : Rat :=
  let base_cost := ((costMap.lookup path).getD 1 : Rat)
  match request_body with
  | some (.obj fields) =>
    if path == "/api/peak-voltages" && !fields.isEmpty then
      match fields.lookup "data" with
      | some (.arr elems) => base_cost * elems.length
      | _ => base_cost
    else base_cost
  | _ => base_cost

/-- Per-request context the middleware sees: path, method, the principal
attached by the auth middleware, the parsed body (`none` when absent or
unparsable), and `bodyLen` standing for `len(str(request_body))`. -/
structure ReqCtx where
  path : String
  method : String
  user_id : Option String
  api_key_id : Option Nat
  body : Option Json
  bodyLen : Nat

/-- Outcome of `call_next`: a response status, or a raised exception.  The
returned `Db` carries the effects of the handler and of any concurrent
requests committing while the dispatch awaits. -/
inductive HandlerResult where
  | response (statusCode : Nat)
  | exception (message : String)
deriving Repr, DecidableEq

/-- A response as the middleware returns it: status plus the numeric billing
headers it may attach. -/
structure HttpResponse where
  statusCode : Nat
  headers : List (String × Rat)
deriving Repr, DecidableEq

/-- What the middleware hands back to the HTTP layer. -/
inductive DispatchResult where
  | resp (r : HttpResponse)
  | raised (message : String)
deriving Repr, DecidableEq

/-- Status code of a dispatch outcome (`none` for a propagated exception). -/
def DispatchResult.statusCode : DispatchResult → Option Nat
  | .resp r => some r.statusCode
  | .raised _ => none

/-- The body used for cost calculation: read only for POST/PUT/PATCH. -/
def gateBody (ctx : ReqCtx) : Option Json :=
  if ctx.method == "POST" || ctx.method == "PUT" || ctx.method == "PATCH"
  then ctx.body else none

/-- Truthiness of the gated body (`request_body or {}` / `if request_body`). -/
def bodyIsTruthy (ctx : ReqCtx) : Bool :=
  match gateBody ctx with
  | some j => jsonTruthy j
  | none => false

/-- The token cost the middleware computes for the request. -/
def tokenCostOf (ctx : ReqCtx) : Rat :=
  calculateEndpointCost ctx.path ctx.method (gateBody ctx)

/-- `len(str(request_data))` for `consume_tokens` (`request_body or {}`;
`len(str({})) == 2`). -/
def consumeSize (ctx : ReqCtx) : Nat :=
  if bodyIsTruthy ctx then ctx.bodyLen else 2

/-- `len(str(request_body)) if request_body else 0` for `_log_usage`. -/
def logSize (ctx : ReqCtx) : Nat :=
  if bodyIsTruthy ctx then ctx.bodyLen else 0

/-- `BillingMiddleware._log_usage`: appends one usage row. -/
def logUsage (user_id : String) (api_key_id : Option Nat) (endpoint : String)
    (tokens_consumed : Rat) (request_size : Nat) (success : Bool)
    (error_message : Option String) (now : Nat) (db : Db) : Db :=
  { db with apiUsage := db.apiUsage ++
      [{ user_id := user_id
         api_key_id := api_key_id
         endpoint := endpoint
         timestamp := now
         tokens_consumed := tokens_consumed
         request_size := request_size
         success := success
         error_message := error_message }] }

/-- `BillingMiddleware.dispatch`.  `elapsedMs` is the measured wall-clock
processing time.  A handler exception is logged and re-raised, then caught
by the outer `except`, which turns it into a 500 response. -/
def dispatch (ctx : ReqCtx) (handler : Db → HandlerResult × Db) (elapsedMs : Rat)
    (now : Nat) (db : Db) : DispatchResult × Db :=
  if !requiresBilling ctx.path then
    match handler db with
    | (.response s, db') => (.resp ⟨s, []⟩, db')
    | (.exception m, db') => (.raised m, db')
  else if !truthyOptStr ctx.user_id then
    (.resp ⟨401, []⟩, db)
  else
    let uid := ctx.user_id.getD ""
    let token_cost := tokenCostOf ctx
    if !checkSufficientBalance uid token_cost db then
      (.resp ⟨402, []⟩, db)
    else
      match handler db with
      | (.response s, db₁) =>
        if 200 ≤ s && s < 300 then
          let res := consumeTokens uid ctx.api_key_id ctx.path token_cost
            (consumeSize ctx) now db₁
          let headers :=
            if res.1 then
              [("X-Tokens-Consumed", token_cost),
               ("X-Remaining-Balance", (getUserBalance uid res.2).getD 0),
               ("X-Processing-Time-Ms", elapsedMs)]
            else []
          let db₃ := logUsage uid ctx.api_key_id ctx.path
            (if res.1 then token_cost else 0) (logSize ctx) true none now res.2
          (.resp ⟨s, headers⟩, db₃)
        else
          let db₂ := logUsage uid ctx.api_key_id ctx.path 0 (logSize ctx)
            false (some ("HTTP " ++ toString s)) now db₁
          (.resp ⟨s, []⟩, db₂)
      | (.exception m, db₁) =>
        let db₂ := logUsage uid ctx.api_key_id ctx.path 0 (logSize ctx)
          false (some m) now db₁
        (.resp ⟨500, []⟩, db₂)

/-! ### AuthService (`CreditScorer/api/services/auth_service.py`) -/

/-- `AuthService.api_key_secret`. -/
def apiKeySecret : String := "demo-secret-key-change-in-production"

/-- `key_hash[:32]`: the first `n` characters of a string. -/
def takeChars (n : Nat) (s : String) : String := String.mk (s.data.take n)

/-- `AuthService._hash_api_key`, with `sha` standing for
`hashlib.sha256(·.encode()).hexdigest()`. -/
def hashApiKey (sha : String → String) (api_key : String) : String :=
  sha (api_key ++ apiKeySecret)

/-- `AuthService._generate_secure_api_key`: `randomHex` is
`secrets.token_bytes(32).hex()`. -/
def generateSecureApiKey (sha : String → String) (randomHex : String) : String :=
  "pk_" ++ takeChars 32 (sha (randomHex ++ apiKeySecret))

/-- `APIKeyRequest` (name and optional expiry in days). -/
structure APIKeyReq where
  name : String
  expires_in_days : Option Nat

/-- `APIKeyResponse`. -/
structure APIKeyResp where
  api_key : String
  name : String
  created_at : Nat
  expires_at : Option Nat
deriving Repr, DecidableEq

/-- User lookup by username (`db.query(User).filter(username == ...).first()`). -/
def findUserByName (username : String) (db : Db) : Option User :=
  db.users.find? (fun u => u.username == username)

/-- Autoincrement id for a new key row. -/
def nextKeyId (db : Db) : Nat :=
  db.apiKeys.foldl (fun m k => max m k.id) 0 + 1

/-- `AuthService.generate_api_key`.  `if request.expires_in_days:` is Python
truthiness, so `0` days means no expiry. -/
def generateApiKey (sha : String → String) (username : String) (req : APIKeyReq)
    (randomHex : String) (now : Nat) (db : Db) : Option APIKeyResp × Db :=
  match findUserByName username db with
  | none => (none, db)
  | some user =>
    if !user.is_active then (none, db)
    else
      let api_key := generateSecureApiKey sha randomHex
      let hashed_key := hashApiKey sha api_key
      let expires_at := match req.expires_in_days with
        | some d => if d != 0 then some (now + d * 86400) else none
        | none => none
      let newKey : APIKey :=
        { id := nextKeyId db
          hashed_key := hashed_key
          user_id := user.user_id
          name := req.name
          created_at := now
          expires_at := expires_at
          is_active := true
          last_used := none
          requests_per_minute := some user.requests_per_minute
          requests_per_hour := some user.requests_per_hour
          requests_per_day := some user.requests_per_day }
      (some { api_key := api_key, name := req.name, created_at := now,
              expires_at := expires_at },
       { db with apiKeys := db.apiKeys ++ [newKey] })

/-- `key_record.expires_at and key_record.expires_at < utcnow()`
(every datetime is truthy). -/
def expiredAt (k : APIKey) (now : Nat) : Bool :=
  match k.expires_at with
  | some e => e < now
  | none => false

/-- The filter of `validate_api_key`'s query:
`hashed_key == ... AND is_active == True`. -/
def activeKeyMatch (hashed_key : String) (k : APIKey) : Bool :=
  k.hashed_key == hashed_key && k.is_active

/-- `AuthService.validate_api_key`. -/
def validateApiKey (sha : String → String) (api_key : String) (now : Nat)
    (db : Db) : Option String × Db :=
  let hashed_key := hashApiKey sha api_key
  match db.apiKeys.find? (activeKeyMatch hashed_key) with
  | none => (none, db)
  | some key_record =>
    if expiredAt key_record now then
      let keys' := updateFirst (activeKeyMatch hashed_key)
        (fun k => { k with is_active := false }) db.apiKeys
      (none, { db with apiKeys := keys' })
    else
      match getUser key_record.user_id db with
      | none => (none, db)
      | some user =>
        if !user.is_active then (none, db)
        else
          let keys' := updateFirst (activeKeyMatch hashed_key)
            (fun k => { k with last_used := some now }) db.apiKeys
          (some key_record.user_id, { db with apiKeys := keys' })

/-! ### Concrete sample data (used to evaluate the theorems on real inputs) -/

/-- A registered, active user with the model's default limits and 10 tokens. -/
def sampleUser : User :=
  { user_id := "u1", username := "alice", is_active := true, token_balance := 10,
    total_tokens_purchased := 100, total_tokens_used := 0,
    requests_per_minute := 10, requests_per_hour := 100, requests_per_day := 1000 }

/-- A store holding only `sampleUser`. -/
def sampleDb : Db :=
  { users := [sampleUser], apiKeys := [], apiUsage := [], tokenTransactions := [] }

/-- `sampleDb` after a concurrent request drained the balance to 0. -/
def drainedDb : Db :=
  { sampleDb with users := [{ sampleUser with token_balance := 0 }] }

/-- A billable request by `sampleUser` with no parsable body. -/
def sampleCtx : ReqCtx :=
  { path := "/api/peak-voltages", method := "POST", user_id := some "u1",
    api_key_id := some 1, body := none, bodyLen := 0 }

/-- A handler that answers 200 while the balance is concurrently drained. -/
def drainingHandler : Db → HandlerResult × Db :=
  fun _ => (.response 200, drainedDb)

/-- A pure handler that answers 200 and leaves the store alone. -/
def okHandler : Db → HandlerResult × Db :=
  fun db => (.response 200, db)

/-- A batch request with a three-element `data` array. -/
def sampleBatchCtx : ReqCtx :=
  { path := "/api/peak-voltages", method := "POST", user_id := some "u1",
    api_key_id := some 1,
    body := some (.obj [("data", .arr [.null, .null, .null])]), bodyLen := 30 }

/-- A key whose per-minute override is 0: non-null, but falsy in Python. -/
def zeroOverrideKey : APIKey :=
  { id := 1, hashed_key := "HK", user_id := "u1", name := "k1", created_at := 0,
    expires_at := none, is_active := true, last_used := none,
    requests_per_minute := some 0, requests_per_hour := none,
    requests_per_day := none }

/-- `sampleDb` plus `zeroOverrideKey`. -/
def zeroOverrideDb : Db := { sampleDb with apiKeys := [zeroOverrideKey] }

/-- A failed usage row inside the trailing day window at time 100000. -/
def failedRow : APIUsage :=
  { user_id := "u1", api_key_id := some 1, endpoint := "/api/peak-voltages",
    timestamp := 99999, tokens_consumed := 5, request_size := 0,
    success := false, error_message := some "HTTP 500" }

/-- `sampleDb` plus the failed usage row. -/
def failedRowDb : Db := { sampleDb with apiUsage := [failedRow] }

/-- A stand-in for SHA-256 hexdigest: a constant 64-char lowercase hex string. -/
def sampleSha : String → String := fun _ => String.mk (List.replicate 64 'a')

/-- A key that expired at time 50 whose hash collides with `sampleSha`. -/
def expiredKey : APIKey :=
  { id := 1, hashed_key := String.mk (List.replicate 64 'a'), user_id := "u1",
    name := "k1", created_at := 0, expires_at := some 50, is_active := true,
    last_used := none, requests_per_minute := none, requests_per_hour := none,
    requests_per_day := none }

/-- `sampleDb` plus the expired key. -/
def expiredKeyDb : Db := { sampleDb with apiKeys := [expiredKey] }

/-! ### Generic lemmas about `updateFirst` and `List.find?` -/

/-- If `find?` returns `u` and `f u` still satisfies the predicate, then after
`updateFirst` the same query returns `f u`. -/
theorem find?_updateFirst {α : Type} (p : α → Bool) (f : α → α) (l : List α) (u : α)
    (h : l.find? p = some u) (hf : p (f u) = true) :
    (updateFirst p f l).find? p = some (f u) := by
  induction l with
  | nil => simp [List.find?] at h
  | cons x xs ih =>
    by_cases hx : p x = true
    · rw [List.find?_cons_of_pos xs hx] at h
      injection h with h
      subst h
      simp [updateFirst, hx, List.find?_cons_of_pos _ hf]
    · have hx' : ¬ p x := by simpa using hx
      rw [List.find?_cons_of_neg xs hx'] at h
      simp [updateFirst, hx', List.find?_cons_of_neg, ih h]

/-- `updateFirst` skips a prefix with no match. -/
theorem updateFirst_append_of_none {α : Type} (p : α → Bool) (f : α → α)
    (l₁ l₂ : List α) (h : ∀ x ∈ l₁, ¬ p x) :
    updateFirst p f (l₁ ++ l₂) = l₁ ++ updateFirst p f l₂ := by
  induction l₁ with
  | nil => rfl
  | cons x xs ih =>
    have hx : ¬ p x := h x (List.mem_cons_self x xs)
    simp [updateFirst, hx]
    exact ih (fun y hy => h y (List.mem_cons_of_mem x hy))

/-- `find?` skips a prefix with no match. -/
theorem find?_append_of_none {α : Type} (p : α → Bool) (l₁ l₂ : List α)
    (h : l₁.find? p = none) : (l₁ ++ l₂).find? p = l₂.find? p := by
  induction l₁ with
  | nil => rfl
  | cons x xs ih =>
    rw [List.find?_eq_none] at h
    have hx : ¬ p x := h x (List.mem_cons_self x xs)
    have hxs : xs.find? p = none := by
      rw [List.find?_eq_none]
      exact fun y hy => h y (List.mem_cons_of_mem x hy)
    simpa [List.find?_cons_of_neg _ hx] using ih hxs

/-! ### Unfolding lemmas for the billing middleware dispatch -/

/-- The billing headers of a dispatch outcome. -/
def headersOf : DispatchResult → List (String × Rat)
  | .resp r => r.headers
  | .raised _ => []

/-- A failing `consume_tokens` returns `false` and the unchanged store. -/
theorem consumeTokens_fail_eq (user_id : String) (api_key_id : Option Nat)
    (endpoint : String) (amount : Rat) (rsize now : Nat) (db : Db)
    (h : (consumeTokens user_id api_key_id endpoint amount rsize now db).1 = false) :
    consumeTokens user_id api_key_id endpoint amount rsize now db = (false, db) := by
  cases hu : getUser user_id db with
  | none => simp [consumeTokens, hu]
  | some u =>
    by_cases hlt : u.token_balance < amount
    · simp [consumeTokens, hu, hlt]
    · simp [consumeTokens, hu, hlt] at h

/-- A successful `consume_tokens` appends exactly one usage row, built from
the call's own arguments. -/
theorem consumeTokens_success_apiUsage (user_id : String) (api_key_id : Option Nat)
    (endpoint : String) (amount : Rat) (rsize now : Nat) (db : Db)
    (h : (consumeTokens user_id api_key_id endpoint amount rsize now db).1 = true) :
    (consumeTokens user_id api_key_id endpoint amount rsize now db).2.apiUsage =
      db.apiUsage ++
        [{ user_id := user_id, api_key_id := api_key_id, endpoint := endpoint,
           timestamp := now, tokens_consumed := amount, request_size := rsize,
           success := true, error_message := none }] := by
  cases hu : getUser user_id db with
  | none => simp [consumeTokens, hu] at h
  | some u =>
    by_cases hlt : u.token_balance < amount
    · simp [consumeTokens, hu, hlt] at h
    · simp [consumeTokens, hu, hlt]

/-- Unfolding `dispatch` on the billable, authenticated, preflight-passing,
2xx path: the debit is attempted, headers appear only when it succeeds, and
one success log row is appended either way. -/
theorem dispatch_eq_2xx (ctx : ReqCtx) (handler : Db → HandlerResult × Db)
    (elapsedMs : Rat) (now : Nat) (db db₁ : Db) (uid : String) (s : Nat)
    (hb : requiresBilling ctx.path = true)
    (huid : ctx.user_id = some uid) (hne : (uid != "") = true)
    (hpre : checkSufficientBalance uid (tokenCostOf ctx) db = true)
    (hh : handler db = (.response s, db₁))
    (h2 : (200 ≤ s && s < 300) = true) :
    dispatch ctx handler elapsedMs now db =
      (.resp ⟨s,
        if (consumeTokens uid ctx.api_key_id ctx.path (tokenCostOf ctx)
              (consumeSize ctx) now db₁).1 then
          [("X-Tokens-Consumed", tokenCostOf ctx),
           ("X-Remaining-Balance",
             (getUserBalance uid
               (consumeTokens uid ctx.api_key_id ctx.path (tokenCostOf ctx)
                 (consumeSize ctx) now db₁).2).getD 0),
           ("X-Processing-Time-Ms", elapsedMs)]
        else []⟩,
       logUsage uid ctx.api_key_id ctx.path
         (if (consumeTokens uid ctx.api_key_id ctx.path (tokenCostOf ctx)
               (consumeSize ctx) now db₁).1 then tokenCostOf ctx else 0)
         (logSize ctx) true none now
         (consumeTokens uid ctx.api_key_id ctx.path (tokenCostOf ctx)
           (consumeSize ctx) now db₁).2) := by
  simp only [dispatch, hb, huid, truthyOptStr, hne, hpre, hh, h2,
    Option.getD_some, Bool.not_true, Bool.not_false, if_true, if_false,
    ite_true, ite_false]
  simp

/-- Unfolding `dispatch` on the billable, authenticated, preflight-passing
path when the handler answers a non-2xx status: no debit, one failure row. -/
theorem dispatch_eq_non2xx (ctx : ReqCtx) (handler : Db → HandlerResult × Db)
    (elapsedMs : Rat) (now : Nat) (db db₁ : Db) (uid : String) (s : Nat)
    (hb : requiresBilling ctx.path = true)
    (huid : ctx.user_id = some uid) (hne : (uid != "") = true)
    (hpre : checkSufficientBalance uid (tokenCostOf ctx) db = true)
    (hh : handler db = (.response s, db₁))
    (h2 : (200 ≤ s && s < 300) = false) :
    dispatch ctx handler elapsedMs now db =
      (.resp ⟨s, []⟩,
       logUsage uid ctx.api_key_id ctx.path 0 (logSize ctx) false
         (some ("HTTP " ++ toString s)) now db₁) := by
  simp only [dispatch, hb, huid, truthyOptStr, hne, hpre, hh, h2,
    Option.getD_some, Bool.not_true, Bool.not_false, if_true, if_false,
    ite_true, ite_false]
  simp

/-- Unfolding `dispatch` on the billable, authenticated, preflight-passing
path when the handler raises: no debit, one failure row, 500 from the outer
`except`. -/
theorem dispatch_eq_exception (ctx : ReqCtx) (handler : Db → HandlerResult × Db)
    (elapsedMs : Rat) (now : Nat) (db db₁ : Db) (uid : String) (m : String)
    (hb : requiresBilling ctx.path = true)
    (huid : ctx.user_id = some uid) (hne : (uid != "") = true)
    (hpre : checkSufficientBalance uid (tokenCostOf ctx) db = true)
    (hh : handler db = (.exception m, db₁)) :
    dispatch ctx handler elapsedMs now db =
      (.resp ⟨500, []⟩,
       logUsage uid ctx.api_key_id ctx.path 0 (logSize ctx) false
         (some m) now db₁) := by
  simp only [dispatch, hb, huid, truthyOptStr, hne, hpre, hh,
    Option.getD_some, Bool.not_true, Bool.not_false, if_true, if_false,
    ite_true, ite_false]
  simp

/-- Counting successful usage rows over an extension of the ledger by rows
that all match the principal, the window and `success = true`. -/
theorem getRequestCount_append_matching (user_id : String) (api_key_id : Option Nat)
    (since : Nat) (db db' : Db) (rows : List APIUsage)
    (h : db'.apiUsage = db.apiUsage ++ rows)
    (hrows : ∀ r ∈ rows, r.user_id = user_id ∧ r.api_key_id = api_key_id ∧
      since ≤ r.timestamp ∧ r.success = true) :
    getRequestCount user_id api_key_id since db' =
      getRequestCount user_id api_key_id since db + rows.length := by
  have hfilter : rows.filter
      (fun r => r.user_id == user_id && since ≤ r.timestamp && r.success) = rows := by
    rw [List.filter_eq_self]
    intro r hr
    rcases hrows r hr with ⟨h₁, _, h₃, h₄⟩
    simp [h₁, h₃, h₄]
  have hfilter₂ : rows.filter (fun r => r.api_key_id == api_key_id) = rows := by
    rw [List.filter_eq_self]
    intro r hr
    rcases hrows r hr with ⟨_, h₂, _, _⟩
    simp [h₂]
  unfold getRequestCount
  rw [h, List.filter_append, hfilter]
  by_cases ht : truthyOptNat api_key_id = true
  · simp [ht, List.filter_append, hfilter₂]
  · simp [eq_false_of_ne_true ht]

/-! ### C4 — `consume_tokens` functional correctness -/

/-- C4: for a user present in the store and a non-negative amount,
`consume_tokens` returns `false` and leaves the store untouched when the
re-read balance is below the amount; otherwise it returns `true`, debits the
balance, adds the amount to `total_tokens_used`, appends exactly one
`TokenTransaction` of type `usage` with amount `-amount`, and appends exactly
one `APIUsage` row with `tokens_consumed = amount` and `success = true`. -/
theorem consume_tokens_correct (user_id : String) (api_key_id : Option Nat)
    (endpoint : String) (amount : Rat) (rsize now : Nat) (db : Db) (u : User)
    (hu : getUser user_id db = some u) (hnn : 0 ≤ amount) :
    if u.token_balance < amount then
      consumeTokens user_id api_key_id endpoint amount rsize now db = (false, db)
    else
      ((consumeTokens user_id api_key_id endpoint amount rsize now db).1 = true ∧
       getUserBalance user_id
           (consumeTokens user_id api_key_id endpoint amount rsize now db).2 =
         some (u.token_balance - amount) ∧
       (getUser user_id
           (consumeTokens user_id api_key_id endpoint amount rsize now db).2).map
           (fun v => v.total_tokens_used) =
         some (u.total_tokens_used + amount) ∧
       ((consumeTokens user_id api_key_id endpoint amount rsize now db).2.tokenTransactions.drop
           db.tokenTransactions.length).map
           (fun t => (t.transaction_type, t.amount)) = [("usage", -amount)] ∧
       ((consumeTokens user_id api_key_id endpoint amount rsize now db).2.apiUsage.drop
           db.apiUsage.length).map
           (fun r => (r.tokens_consumed, r.success)) = [(amount, true)]) := by
  have hu' : db.users.find? (fun v => v.user_id == user_id) = some u := hu
  have hp := List.find?_some hu'
  split
  case isTrue hlt =>
    simp [consumeTokens, hu, hlt]
  case isFalse hnlt =>
    have hval : consumeTokens user_id api_key_id endpoint amount rsize now db =
        (true,
          { db with
            users := updateFirst (fun v : User => v.user_id == user_id)
              (fun _ => { u with
                token_balance := u.token_balance - amount,
                total_tokens_used := u.total_tokens_used + amount }) db.users
            tokenTransactions := db.tokenTransactions ++
              [{ user_id := user_id
                 transaction_type := "usage"
                 amount := -amount
                 previous_balance := u.token_balance
                 new_balance := u.token_balance - amount
                 timestamp := now
                 description := "API call to " ++ endpoint
                 reference_id := some (refId api_key_id endpoint now) }]
            apiUsage := db.apiUsage ++
              [{ user_id := user_id
                 api_key_id := api_key_id
                 endpoint := endpoint
                 timestamp := now
                 tokens_consumed := amount
                 request_size := rsize
                 success := true
                 error_message := none }] }) := by
      simp [consumeTokens, hu, hnlt]
    rw [hval]
    refine ⟨rfl, ?_, ?_, ?_, ?_⟩
    · have := find?_updateFirst (fun v : User => v.user_id == user_id)
        (fun _ => { u with
          token_balance := u.token_balance - amount,
          total_tokens_used := u.total_tokens_used + amount }) db.users u hu' hp
      simp [getUserBalance, getUser, this]
    · have := find?_updateFirst (fun v : User => v.user_id == user_id)
        (fun _ => { u with
          token_balance := u.token_balance - amount,
          total_tokens_used := u.total_tokens_used + amount }) db.users u hu' hp
      simp [getUser, this]
    · simp [List.drop_left]
    · simp [List.drop_left]

/-- C4 witness: the theorem applied to `sampleUser` (balance 10) and amount 1. -/
theorem consume_tokens_correct_witness :
    getUser "u1" sampleDb = some sampleUser ∧ (0 : Rat) ≤ 1 ∧
    (if sampleUser.token_balance < 1 then
      consumeTokens "u1" (some 1) "/api/peak-voltages" 1 2 5 sampleDb =
        (false, sampleDb)
    else
      ((consumeTokens "u1" (some 1) "/api/peak-voltages" 1 2 5 sampleDb).1 = true ∧
       getUserBalance "u1"
           (consumeTokens "u1" (some 1) "/api/peak-voltages" 1 2 5 sampleDb).2 =
         some (sampleUser.token_balance - 1) ∧
       (getUser "u1"
           (consumeTokens "u1" (some 1) "/api/peak-voltages" 1 2 5 sampleDb).2).map
           (fun v => v.total_tokens_used) =
         some (sampleUser.total_tokens_used + 1) ∧
       ((consumeTokens "u1" (some 1) "/api/peak-voltages" 1 2 5 sampleDb).2.tokenTransactions.drop
           sampleDb.tokenTransactions.length).map
           (fun t => (t.transaction_type, t.amount)) = [("usage", -1)] ∧
       ((consumeTokens "u1" (some 1) "/api/peak-voltages" 1 2 5 sampleDb).2.apiUsage.drop
           sampleDb.apiUsage.length).map
           (fun r => (r.tokens_consumed, r.success)) = [(1, true)])) :=
  ⟨by decide, by norm_num,
   consume_tokens_correct "u1" (some 1) "/api/peak-voltages" 1 2 5 sampleDb
     sampleUser (by decide) (by norm_num)⟩

/-! ### C8 — `TokenTransaction` balance invariant -/

/-- C8: every `TokenTransaction` row appended by `consume_tokens` or
`add_tokens` satisfies `new_balance = previous_balance + amount`, with
`previous_balance` equal to the user's balance immediately before the
operation. -/
theorem token_transaction_balance_invariant (user_id transaction_id : String)
    (api_key_id : Option Nat) (endpoint : String) (amount credit : Rat)
    (transaction_type description : String) (rsize now : Nat) (db : Db) (u : User)
    (hu : getUser user_id db = some u) :
    (((consumeTokens user_id api_key_id endpoint amount rsize now db).2.tokenTransactions.drop
        db.tokenTransactions.length).all
      (fun t => t.new_balance == t.previous_balance + t.amount &&
                t.previous_balance == u.token_balance) = true) ∧
    (((addTokens user_id transaction_id credit transaction_type description now db).2.tokenTransactions.drop
        db.tokenTransactions.length).all
      (fun t => t.new_balance == t.previous_balance + t.amount &&
                t.previous_balance == u.token_balance) = true) := by
  constructor
  · by_cases hlt : u.token_balance < amount
    · simp [consumeTokens, hu, hlt, List.drop_length]
    · simp [consumeTokens, hu, hlt, List.drop_left, sub_eq_add_neg]
  · simp [addTokens, hu, List.drop_left]

/-- C8 witness: the invariant evaluated for a 1-token debit and a 50-token
purchase on `sampleUser`. -/
theorem token_transaction_balance_invariant_witness :
    getUser "u1" sampleDb = some sampleUser ∧
    ((((consumeTokens "u1" (some 1) "/api/peak-voltages" 1 2 5 sampleDb).2.tokenTransactions.drop
        sampleDb.tokenTransactions.length).all
      (fun t => t.new_balance == t.previous_balance + t.amount &&
                t.previous_balance == sampleUser.token_balance) = true) ∧
    (((addTokens "u1" "txn-7" 50 "purchase" "Token purchase" 5 sampleDb).2.tokenTransactions.drop
        sampleDb.tokenTransactions.length).all
      (fun t => t.new_balance == t.previous_balance + t.amount &&
                t.previous_balance == sampleUser.token_balance) = true)) :=
  ⟨by decide,
   token_transaction_balance_invariant "u1" "txn-7" (some 1) "/api/peak-voltages"
     1 50 "purchase" "Token purchase" 2 5 sampleDb sampleUser (by decide)⟩

/-! ### C1 — a debit lost to the balance race does not produce a 402 -/

/-- C1 counterexample: with balance 10 and cost 1 the preflight passes, the
handler answers 200 while a concurrent commit drains the balance, the debit
then fails — and the billing stage still returns status 200, not 402. -/
theorem lost_race_counterexample :
    checkSufficientBalance "u1" (tokenCostOf sampleCtx) sampleDb = true ∧
    drainingHandler sampleDb = (.response 200, drainedDb) ∧
    (consumeTokens "u1" (some 1) "/api/peak-voltages" (tokenCostOf sampleCtx)
      (consumeSize sampleCtx) 5 drainedDb).1 = false ∧
    (dispatch sampleCtx drainingHandler 0 5 sampleDb).1.statusCode = some 200 :=
  ⟨by decide, by decide, by decide, by decide⟩

/-- C1 (amended): when the debit after a 2xx fails because the balance race
was lost, the billing stage returns the handler's 2xx response without the
billing headers, leaves users and the transaction ledger as the handler left
them, and appends one `success = true` usage row with `tokens_consumed = 0`. -/
theorem lost_race_returns_handler_response (ctx : ReqCtx)
    (handler : Db → HandlerResult × Db) (elapsedMs : Rat) (now : Nat)
    (db db₁ : Db) (uid : String) (s : Nat)
    (hb : requiresBilling ctx.path = true)
    (huid : ctx.user_id = some uid) (hne : (uid != "") = true)
    (hpre : checkSufficientBalance uid (tokenCostOf ctx) db = true)
    (hh : handler db = (.response s, db₁))
    (h2 : (200 ≤ s && s < 300) = true)
    (hfail : (consumeTokens uid ctx.api_key_id ctx.path (tokenCostOf ctx)
      (consumeSize ctx) now db₁).1 = false) :
    (dispatch ctx handler elapsedMs now db).1 = .resp ⟨s, []⟩ ∧
    (dispatch ctx handler elapsedMs now db).2.users = db₁.users ∧
    (dispatch ctx handler elapsedMs now db).2.tokenTransactions =
      db₁.tokenTransactions ∧
    ((dispatch ctx handler elapsedMs now db).2.apiUsage.drop
        db₁.apiUsage.length).map (fun r => (r.success, r.tokens_consumed)) =
      [(true, 0)] := by
  have hd := dispatch_eq_2xx ctx handler elapsedMs now db db₁ uid s hb huid hne
    hpre hh h2
  have hc := consumeTokens_fail_eq uid ctx.api_key_id ctx.path (tokenCostOf ctx)
    (consumeSize ctx) now db₁ hfail
  rw [hd, hc]
  simp [logUsage, List.drop_left]

/-- C1 witness: the amended theorem evaluated on the draining handler. -/
theorem lost_race_returns_handler_response_witness :
    (dispatch sampleCtx drainingHandler 0 5 sampleDb).1 = .resp ⟨200, []⟩ ∧
    (dispatch sampleCtx drainingHandler 0 5 sampleDb).2.users = drainedDb.users ∧
    (dispatch sampleCtx drainingHandler 0 5 sampleDb).2.tokenTransactions =
      drainedDb.tokenTransactions ∧
    ((dispatch sampleCtx drainingHandler 0 5 sampleDb).2.apiUsage.drop
        drainedDb.apiUsage.length).map (fun r => (r.success, r.tokens_consumed)) =
      [(true, 0)] :=
  lost_race_returns_handler_response sampleCtx drainingHandler 0 5 sampleDb
    drainedDb "u1" 200 (by decide) (by decide) (by decide) (by decide)
    (by decide) (by decide) (by decide)

/-! ### C2 — two success rows per successfully debited 2xx request -/

/-- C2: on the billable 2xx path a successful debit appends exactly two
`success = true` usage rows for the request (the ledger row written by
`consume_tokens` and the middleware's `_log_usage` row), so every
sliding-window count for the principal rises by 2; a failed debit still
appends one `success = true` row with `tokens_consumed = 0` (raising counts
by 1). -/
theorem double_usage_rows_per_success (ctx : ReqCtx)
    (handler : Db → HandlerResult × Db) (elapsedMs : Rat) (now since : Nat)
    (db db₁ : Db) (uid : String) (s : Nat)
    (hb : requiresBilling ctx.path = true)
    (huid : ctx.user_id = some uid) (hne : (uid != "") = true)
    (hpre : checkSufficientBalance uid (tokenCostOf ctx) db = true)
    (hh : handler db = (.response s, db₁))
    (h2 : (200 ≤ s && s < 300) = true)
    (hsince : since ≤ now) :
    ((dispatch ctx handler elapsedMs now db).2.apiUsage.drop
        db₁.apiUsage.length).map (fun r => (r.success, r.tokens_consumed)) =
      (if (consumeTokens uid ctx.api_key_id ctx.path (tokenCostOf ctx)
            (consumeSize ctx) now db₁).1 then
        [(true, tokenCostOf ctx), (true, tokenCostOf ctx)]
      else [(true, 0)]) ∧
    getRequestCount uid ctx.api_key_id since
        (dispatch ctx handler elapsedMs now db).2 =
      getRequestCount uid ctx.api_key_id since db₁ +
        (if (consumeTokens uid ctx.api_key_id ctx.path (tokenCostOf ctx)
              (consumeSize ctx) now db₁).1 then 2 else 1) := by
  have hd := dispatch_eq_2xx ctx handler elapsedMs now db db₁ uid s hb huid hne
    hpre hh h2
  by_cases hok : (consumeTokens uid ctx.api_key_id ctx.path (tokenCostOf ctx)
      (consumeSize ctx) now db₁).1 = true
  · have hshape := consumeTokens_success_apiUsage uid ctx.api_key_id ctx.path
      (tokenCostOf ctx) (consumeSize ctx) now db₁ hok
    constructor
    · rw [hd]
      simp [logUsage, hok, hshape, List.append_assoc, List.drop_left]
    · have happ : (dispatch ctx handler elapsedMs now db).2.apiUsage =
          db₁.apiUsage ++
            [{ user_id := uid, api_key_id := ctx.api_key_id, endpoint := ctx.path,
               timestamp := now, tokens_consumed := tokenCostOf ctx,
               request_size := consumeSize ctx, success := true,
               error_message := none },
             { user_id := uid, api_key_id := ctx.api_key_id, endpoint := ctx.path,
               timestamp := now, tokens_consumed := tokenCostOf ctx,
               request_size := logSize ctx, success := true,
               error_message := none }] := by
        rw [hd]
        simp [logUsage, hok, hshape, List.append_assoc]
      have hcount := getRequestCount_append_matching uid ctx.api_key_id since db₁
        (dispatch ctx handler elapsedMs now db).2 _ happ
        (by
          intro r hr
          simp only [List.mem_cons, List.not_mem_nil, or_false] at hr
          rcases hr with rfl | rfl <;> exact ⟨rfl, rfl, hsince, rfl⟩)
      rw [hcount, if_pos hok]
      rfl
  · have hfail : (consumeTokens uid ctx.api_key_id ctx.path (tokenCostOf ctx)
        (consumeSize ctx) now db₁).1 = false := by
      simpa using hok
    have hc := consumeTokens_fail_eq uid ctx.api_key_id ctx.path (tokenCostOf ctx)
      (consumeSize ctx) now db₁ hfail
    constructor
    · rw [hd, hc]
      simp [logUsage, List.drop_left]
    · have happ : (dispatch ctx handler elapsedMs now db).2.apiUsage =
          db₁.apiUsage ++
            [{ user_id := uid, api_key_id := ctx.api_key_id, endpoint := ctx.path,
               timestamp := now, tokens_consumed := 0,
               request_size := logSize ctx, success := true,
               error_message := none }] := by
        rw [hd, hc]
        simp [logUsage]
      have hcount := getRequestCount_append_matching uid ctx.api_key_id since db₁
        (dispatch ctx handler elapsedMs now db).2 _ happ
        (by
          intro r hr
          simp only [List.mem_cons, List.not_mem_nil, or_false] at hr
          rcases hr with rfl
          exact ⟨rfl, rfl, hsince, rfl⟩)
      rw [hcount, if_neg (by simp [hfail])]
      rfl

/-- C2 witness: a successful debit on `sampleDb` appends the two success
rows and raises the minute-window count by 2. -/
theorem double_usage_rows_per_success_witness :
    ((dispatch sampleCtx okHandler 0 5 sampleDb).2.apiUsage.drop
        sampleDb.apiUsage.length).map (fun r => (r.success, r.tokens_consumed)) =
      (if (consumeTokens "u1" (some 1) "/api/peak-voltages" (tokenCostOf sampleCtx)
            (consumeSize sampleCtx) 5 sampleDb).1 then
        [(true, tokenCostOf sampleCtx), (true, tokenCostOf sampleCtx)]
      else [(true, 0)]) ∧
    getRequestCount "u1" (some 1) 2 (dispatch sampleCtx okHandler 0 5 sampleDb).2 =
      getRequestCount "u1" (some 1) 2 sampleDb +
        (if (consumeTokens "u1" (some 1) "/api/peak-voltages" (tokenCostOf sampleCtx)
              (consumeSize sampleCtx) 5 sampleDb).1 then 2 else 1) :=
  double_usage_rows_per_success sampleCtx okHandler 0 5 2 sampleDb sampleDb "u1"
    200 (by decide) (by decide) (by decide) (by decide) (by decide) (by decide)
    (by decide)

/-! ### C3 — no debit and a zero-token failure row on non-2xx or exception -/

/-- C3: when the handler answers a non-2xx status or raises, the billing
stage performs no debit: users and the transaction ledger stay as the
handler left them and exactly one `success = false` usage row with
`tokens_consumed = 0` is appended. -/
theorem no_debit_on_failure (ctx : ReqCtx)
    (handler : Db → HandlerResult × Db) (elapsedMs : Rat) (now : Nat)
    (db db₁ : Db) (uid : String) (s : Nat) (m : String)
    (hb : requiresBilling ctx.path = true)
    (huid : ctx.user_id = some uid) (hne : (uid != "") = true)
    (hpre : checkSufficientBalance uid (tokenCostOf ctx) db = true)
    (houtcome : (handler db = (.response s, db₁) ∧ (200 ≤ s && s < 300) = false) ∨
      handler db = (.exception m, db₁)) :
    (dispatch ctx handler elapsedMs now db).2.users = db₁.users ∧
    (dispatch ctx handler elapsedMs now db).2.tokenTransactions =
      db₁.tokenTransactions ∧
    ((dispatch ctx handler elapsedMs now db).2.apiUsage.drop
        db₁.apiUsage.length).map (fun r => (r.success, r.tokens_consumed)) =
      [(false, 0)] := by
  rcases houtcome with ⟨hh, h2⟩ | hh
  · rw [dispatch_eq_non2xx ctx handler elapsedMs now db db₁ uid s hb huid hne
      hpre hh h2]
    simp [logUsage, List.drop_left]
  · rw [dispatch_eq_exception ctx handler elapsedMs now db db₁ uid m hb huid hne
      hpre hh]
    simp [logUsage, List.drop_left]

/-- A handler answering 404 without touching the store. -/
def notFoundHandler : Db → HandlerResult × Db :=
  fun db => (.response 404, db)

/-- C3 witness: a 404 handler yields exactly one zero-token failure row and
no ledger change. -/
theorem no_debit_on_failure_witness :
    (dispatch sampleCtx notFoundHandler 0 5 sampleDb).2.users = sampleDb.users ∧
    (dispatch sampleCtx notFoundHandler 0 5 sampleDb).2.tokenTransactions =
      sampleDb.tokenTransactions ∧
    ((dispatch sampleCtx notFoundHandler 0 5 sampleDb).2.apiUsage.drop
        sampleDb.apiUsage.length).map (fun r => (r.success, r.tokens_consumed)) =
      [(false, 0)] :=
  no_debit_on_failure sampleCtx notFoundHandler 0 5 sampleDb sampleDb "u1" 404
    "unused" (by decide) (by decide) (by decide) (by decide)
    (Or.inl ⟨by decide, by decide⟩)

/-! ### C7 — batch cost law -/

/-- C7: for a POST to the batch billable path whose parsed body has a `data`
list of `n` items, the computed cost is `unit_cost * n`, and when the
response is 2xx and the debit succeeds the `X-Tokens-Consumed` header equals
that cost. -/
theorem batch_cost_law (ctx : ReqCtx) (handler : Db → HandlerResult × Db)
    (elapsedMs : Rat) (now : Nat) (db db₁ : Db) (uid : String) (s : Nat)
    (fields : List (String × Json)) (elems : List Json)
    (hpath : ctx.path = "/api/peak-voltages") (hmeth : ctx.method = "POST")
    (hbody : ctx.body = some (.obj fields))
    (hdata : fields.lookup "data" = some (.arr elems))
    (huid : ctx.user_id = some uid) (hne : (uid != "") = true)
    (hpre : checkSufficientBalance uid (tokenCostOf ctx) db = true)
    (hh : handler db = (.response s, db₁))
    (h2 : (200 ≤ s && s < 300) = true)
    (hsucc : (consumeTokens uid ctx.api_key_id ctx.path (tokenCostOf ctx)
      (consumeSize ctx) now db₁).1 = true) :
    tokenCostOf ctx = ((costMap.lookup ctx.path).getD 1) * elems.length ∧
    (headersOf (dispatch ctx handler elapsedMs now db).1).lookup
        "X-Tokens-Consumed" =
      some (((costMap.lookup ctx.path).getD 1) * elems.length) := by
  have hb : requiresBilling ctx.path = true := by rw [hpath]; decide
  have hfe : fields ≠ [] := by
    intro hnil
    rw [hnil] at hdata
    simp [List.lookup] at hdata
  have hcost : tokenCostOf ctx =
      ((costMap.lookup ctx.path).getD 1) * elems.length := by
    unfold tokenCostOf gateBody
    rw [hmeth, hbody, hpath]
    simp [calculateEndpointCost, hdata, hfe]
  refine ⟨hcost, ?_⟩
  have hd := dispatch_eq_2xx ctx handler elapsedMs now db db₁ uid s hb huid hne
    hpre hh h2
  rw [hd]
  simp only [hsucc, if_true, ite_true]
  simp [headersOf, List.lookup]
  exact hcost

/-- C7 witness: a three-element batch costs 3 tokens and the header says so. -/
theorem batch_cost_law_witness :
    tokenCostOf sampleBatchCtx =
      ((costMap.lookup sampleBatchCtx.path).getD 1) * ((3 : Nat) : Rat) ∧
    (headersOf (dispatch sampleBatchCtx okHandler 0 5 sampleDb).1).lookup
        "X-Tokens-Consumed" =
      some (((costMap.lookup sampleBatchCtx.path).getD 1) * ((3 : Nat) : Rat)) :=
  batch_cost_law sampleBatchCtx okHandler 0 5 sampleDb sampleDb "u1" 200
    [("data", .arr [.null, .null, .null])] [.null, .null, .null]
    rfl rfl rfl rfl rfl (by decide)
    (by
      rw [show tokenCostOf sampleBatchCtx = 3 from by
        norm_num [tokenCostOf, gateBody, sampleBatchCtx, calculateEndpointCost,
          costMap, List.lookup]]
      decide)
    (by decide) (by decide)
    (by
      rw [show tokenCostOf sampleBatchCtx = 3 from by
        norm_num [tokenCostOf, gateBody, sampleBatchCtx, calculateEndpointCost,
          costMap, List.lookup]]
      decide)

/-! ### C5 — rate-limit allowed iff strictly below every effective limit -/

/-- The effective limit as the claim words it: the key's override whenever
the key is present and the override is non-null. -/
def specLimitNonNull (api_key : Option APIKey) (override : APIKey → Option Nat)
    (dflt : Nat) : Nat :=
  match api_key with
  | some k => (override k).getD dflt
  | none => dflt

/-- The claim's allowed-predicate: strictly below the non-null-override
limit in all three windows, counting only successful rows. -/
def specAllowedNonNull (user_id : String) (api_key_id : Option Nat) (now : Nat)
    (db : Db) : Bool :=
  match getUser user_id db with
  | none => false
  | some u =>
    let key := apiKeyFor api_key_id db
    decide (getRequestCount user_id api_key_id (now - 60) db <
      specLimitNonNull key (fun k => k.requests_per_minute) u.requests_per_minute) &&
    (decide (getRequestCount user_id api_key_id (now - 3600) db <
      specLimitNonNull key (fun k => k.requests_per_hour) u.requests_per_hour) &&
    decide (getRequestCount user_id api_key_id (now - 86400) db <
      specLimitNonNull key (fun k => k.requests_per_day) u.requests_per_day))

/-- The code's allowed-predicate: the override binds only when it is truthy
(present and non-zero), as `effectiveLimit` implements. -/
def specAllowedTruthy (user_id : String) (api_key_id : Option Nat) (now : Nat)
    (db : Db) : Bool :=
  match getUser user_id db with
  | none => false
  | some u =>
    let key := apiKeyFor api_key_id db
    decide (getRequestCount user_id api_key_id (now - 60) db <
      effectiveLimit key (fun k => k.requests_per_minute) u.requests_per_minute) &&
    (decide (getRequestCount user_id api_key_id (now - 3600) db <
      effectiveLimit key (fun k => k.requests_per_hour) u.requests_per_hour) &&
    decide (getRequestCount user_id api_key_id (now - 86400) db <
      effectiveLimit key (fun k => k.requests_per_day) u.requests_per_day))

/-- C5 counterexample: a key with a per-minute override of 0 — non-null but
falsy — makes the code fall back to the user's default (10), so it allows a
request the claim's non-null reading must deny (count 0 is not below 0). -/
theorem rate_limit_nonnull_counterexample :
    (checkRateLimit "u1" (some 1) 100000 zeroOverrideDb).allowed = true ∧
    specAllowedNonNull "u1" (some 1) 100000 zeroOverrideDb = false :=
  ⟨by decide, by decide⟩

/-- C5 (amended): for a present user, `check_rate_limit` allows the request
iff in each of the three windows the count of successful usage rows of the
principal is strictly below the effective limit, where the key override
binds only when present and non-zero. -/
theorem check_rate_limit_allowed_iff (user_id : String) (api_key_id : Option Nat)
    (now : Nat) (db : Db) (u : User) (hu : getUser user_id db = some u) :
    (checkRateLimit user_id api_key_id now db).allowed =
      specAllowedTruthy user_id api_key_id now db := by
  have hwin : ∀ l : List (String × Nat × Nat),
      (checkWindows user_id api_key_id now db l).allowed =
        l.all (fun w =>
          decide (getRequestCount user_id api_key_id (now - w.2.2) db < w.2.1)) := by
    intro l
    induction l with
    | nil => rfl
    | cons w rest ih =>
      rcases w with ⟨wname, wlimit, wduration⟩
      by_cases hc : wlimit ≤ getRequestCount user_id api_key_id (now - wduration) db
      · have hnlt : ¬ getRequestCount user_id api_key_id (now - wduration) db < wlimit :=
          not_lt.mpr hc
        simp [checkWindows, hc, hnlt]
      · have hlt : getRequestCount user_id api_key_id (now - wduration) db < wlimit :=
          not_le.mp hc
        simp [checkWindows, hc, hlt, ih]
  simp [checkRateLimit, specAllowedTruthy, hu, hwin, windowSpecs]

/-- C5 witness: the amended equivalence evaluated on the zero-override key. -/
theorem check_rate_limit_allowed_iff_witness :
    getUser "u1" zeroOverrideDb = some sampleUser ∧
    (checkRateLimit "u1" (some 1) 100000 zeroOverrideDb).allowed =
      specAllowedTruthy "u1" (some 1) 100000 zeroOverrideDb :=
  ⟨by decide, check_rate_limit_allowed_iff "u1" (some 1) 100000 zeroOverrideDb
    sampleUser (by decide)⟩

/-! ### C9 — usage stats aggregate all rows, not only successful ones -/

/-- All usage rows of the user inside the trailing window, successful or
not — what `get_usage_stats` actually aggregates. -/
def windowUsageRows (user_id : String) (since : Nat) (db : Db) : List APIUsage :=
  db.apiUsage.filter (fun r => r.user_id == user_id && since ≤ r.timestamp)

/-- C9 counterexample: a failed (`success = false`) row inside the window is
counted by `get_usage_stats` — `total_requests = 1` — although the window
holds zero successful rows, refuting the only-successful-rows claim. -/
theorem usage_stats_counts_failures_counterexample :
    (getUsageStats "u1" 1 100000 failedRowDb).total_requests = 1 ∧
    (failedRowDb.apiUsage.filter (fun r => r.user_id == "u1" &&
        decide ((100000 - 1 * 86400 : Nat) ≤ r.timestamp) && r.success)).length = 0 :=
  ⟨by decide, by decide⟩

/-- C9 (amended): `get_usage_stats` aggregates every usage row of the user
in the window, successful or failed: totals and the endpoint breakdown are
those of `windowUsageRows`, and `current_balance` is the user's balance. -/
theorem usage_stats_aggregates_all_rows (user_id : String) (days now : Nat)
    (db : Db) (u : User) (hu : getUser user_id db = some u) :
    getUsageStats user_id days now db =
      { period_days := days
        current_balance := u.token_balance
        total_requests := (windowUsageRows user_id (now - days * 86400) db).length
        total_tokens_consumed :=
          sumTokens (windowUsageRows user_id (now - days * 86400) db)
        endpoint_breakdown :=
          endpointBreakdown (windowUsageRows user_id (now - days * 86400) db) } := by
  simp [getUsageStats, windowUsageRows, hu]

/-- C9 witness: the amended aggregation evaluated on the failed-row store. -/
theorem usage_stats_aggregates_all_rows_witness :
    getUser "u1" failedRowDb = some sampleUser ∧
    getUsageStats "u1" 1 100000 failedRowDb =
      { period_days := 1
        current_balance := sampleUser.token_balance
        total_requests :=
          (windowUsageRows "u1" (100000 - 1 * 86400) failedRowDb).length
        total_tokens_consumed :=
          sumTokens (windowUsageRows "u1" (100000 - 1 * 86400) failedRowDb)
        endpoint_breakdown :=
          endpointBreakdown (windowUsageRows "u1" (100000 - 1 * 86400) failedRowDb) } :=
  ⟨by decide, usage_stats_aggregates_all_rows "u1" 1 100000 failedRowDb
    sampleUser (by decide)⟩


/-! ### C6 — expired keys are deactivated once and stay idempotently invalid -/

/-- If the active-key query found `k` and the list holds at most one row with
that hash, every hash-matching row left after deactivation is exactly `k`
turned inactive. -/
theorem mem_after_deactivate (h : String) (l : List APIKey) (k : APIKey)
    (hfind : l.find? (activeKeyMatch h) = some k)
    (hcnt : l.countP (fun r => r.hashed_key == h) ≤ 1) :
    ∀ r ∈ updateFirst (activeKeyMatch h) (fun r => { r with is_active := false }) l,
      r.hashed_key = h → r = { k with is_active := false } := by
  induction l with
  | nil => simp [List.find?] at hfind
  | cons x xs ih =>
    by_cases hx : activeKeyMatch h x = true
    · rw [List.find?_cons_of_pos _ hx] at hfind
      injection hfind with hfind
      subst hfind
      have hq : (x.hashed_key == h) = true := by
        have hx' := hx
        rw [activeKeyMatch, Bool.and_eq_true] at hx'
        exact hx'.1
      have hcnt0 : xs.countP (fun r => r.hashed_key == h) = 0 := by
        rw [List.countP_cons_of_pos (fun r : APIKey => r.hashed_key == h) _ hq] at hcnt
        omega
      intro r hr hrh
      simp only [updateFirst, if_pos hx] at hr
      rcases List.mem_cons.mp hr with rfl | hr'
      · rfl
      · exact absurd (by simp [hrh]) (List.countP_eq_zero.mp hcnt0 r hr')
    · rw [List.find?_cons_of_neg _ hx] at hfind
      have hcnt' : xs.countP (fun r => r.hashed_key == h) ≤ 1 := by
        by_cases hq : (x.hashed_key == h) = true
        · rw [List.countP_cons_of_pos (fun r : APIKey => r.hashed_key == h) _ hq] at hcnt
          omega
        · rw [List.countP_cons_of_neg (fun r : APIKey => r.hashed_key == h) _ (by simpa using hq)] at hcnt
          exact hcnt
      intro r hr hrh
      simp only [updateFirst, if_neg hx] at hr
      rcases List.mem_cons.mp hr with rfl | hr'
      · exfalso
        have hq : (r.hashed_key == h) = true := by simp [hrh]
        rw [List.countP_cons_of_pos (fun r : APIKey => r.hashed_key == h) _ hq] at hcnt
        have hcnt0 : xs.countP (fun y => y.hashed_key == h) = 0 := by omega
        have hk := List.find?_some hfind
        rw [activeKeyMatch, Bool.and_eq_true] at hk
        exact (List.countP_eq_zero.mp hcnt0 k (List.mem_of_find?_eq_some hfind)) hk.1
      · exact ih hfind hcnt' r hr' hrh

/-- After deactivating the found key, no active row with that hash remains. -/
theorem find?_none_after_deactivate (h : String) (l : List APIKey) (k : APIKey)
    (hfind : l.find? (activeKeyMatch h) = some k)
    (hcnt : l.countP (fun r => r.hashed_key == h) ≤ 1) :
    (updateFirst (activeKeyMatch h) (fun r => { r with is_active := false }) l).find?
      (activeKeyMatch h) = none := by
  rw [List.find?_eq_none]
  intro r hr hmatch
  have hmm := hmatch
  rw [activeKeyMatch, Bool.and_eq_true, beq_iff_eq] at hmm
  have hre := mem_after_deactivate h l k hfind hcnt r hr hmm.1
  rw [hre] at hmm
  simp at hmm

/-- C6: validating an expired key returns none and deactivates it in the
same transaction (its `expires_at` untouched), and every subsequent
validation returns none without modifying the store at all. -/
theorem expired_key_idempotent (sha : String → String) (pt : String)
    (now now₂ : Nat) (db : Db) (k : APIKey) (e : Nat)
    (hfind : db.apiKeys.find? (activeKeyMatch (hashApiKey sha pt)) = some k)
    (hcnt : db.apiKeys.countP
      (fun r => r.hashed_key == hashApiKey sha pt) ≤ 1)
    (hexp : k.expires_at = some e) (hpast : e < now) :
    (validateApiKey sha pt now db).1 = none ∧
    ((validateApiKey sha pt now db).2.apiKeys.all (fun r =>
      !(r.hashed_key == hashApiKey sha pt) ||
        (!r.is_active && (r.expires_at == k.expires_at))) = true) ∧
    validateApiKey sha pt now₂ (validateApiKey sha pt now db).2 =
      (none, (validateApiKey sha pt now db).2) := by
  have hexpired : expiredAt k now = true := by simp [expiredAt, hexp, hpast]
  have hval : validateApiKey sha pt now db =
      (none, { db with apiKeys := (updateFirst (activeKeyMatch (hashApiKey sha pt))
          (fun r => { r with is_active := false }) db.apiKeys) }) := by
    simp [validateApiKey, hfind, hexpired]
  rw [hval]
  refine ⟨rfl, ?_, ?_⟩
  · rw [List.all_eq_true]
    intro r hr
    by_cases hh : r.hashed_key = hashApiKey sha pt
    · have hre := mem_after_deactivate _ _ _ hfind hcnt r hr hh
      rw [hre]
      simp
    · simp [hh]
  · have hnone := find?_none_after_deactivate (hashApiKey sha pt) db.apiKeys k
      hfind hcnt
    simp [validateApiKey, hnone]

/-- C6 witness: the theorem evaluated on the key that expired at time 50,
validated at times 100 and 200. -/
theorem expired_key_idempotent_witness :
    expiredKeyDb.apiKeys.find?
      (activeKeyMatch (hashApiKey sampleSha "pk_x")) = some expiredKey ∧
    expiredKeyDb.apiKeys.countP
      (fun r => r.hashed_key == hashApiKey sampleSha "pk_x") ≤ 1 ∧
    expiredKey.expires_at = some 50 ∧ 50 < 100 ∧
    ((validateApiKey sampleSha "pk_x" 100 expiredKeyDb).1 = none ∧
     ((validateApiKey sampleSha "pk_x" 100 expiredKeyDb).2.apiKeys.all (fun r =>
       !(r.hashed_key == hashApiKey sampleSha "pk_x") ||
         (!r.is_active && (r.expires_at == expiredKey.expires_at))) = true) ∧
     validateApiKey sampleSha "pk_x" 200
         (validateApiKey sampleSha "pk_x" 100 expiredKeyDb).2 =
       (none, (validateApiKey sampleSha "pk_x" 100 expiredKeyDb).2)) :=
  ⟨by decide, by decide, by decide, by decide,
   expired_key_idempotent sampleSha "pk_x" 100 200 expiredKeyDb expiredKey 50
     (by decide) (by decide) (by decide) (by decide)⟩

/-! ### C10 — mint/verify round-trip -/

/-- The lowercase hexadecimal alphabet of `hexdigest`. -/
def hexChars : List Char := "0123456789abcdef".data

/-- Validating a fresh key appended to a store with no hash collision finds
the key, stamps `last_used`, and returns its owner. -/
theorem validateApiKey_fresh_append (sha : String → String) (pt : String)
    (now : Nat) (db : Db) (nk : APIKey) (u : User)
    (hmatch : nk.hashed_key = hashApiKey sha pt) (hactive : nk.is_active = true)
    (hnexp : expiredAt nk now = false)
    (huser : getUser nk.user_id db = some u) (huact : u.is_active = true)
    (hfresh : ∀ r ∈ db.apiKeys, r.hashed_key ≠ hashApiKey sha pt) :
    validateApiKey sha pt now { db with apiKeys := db.apiKeys ++ [nk] } =
      (some nk.user_id,
       { db with apiKeys := db.apiKeys ++ [{ nk with last_used := some now }] }) := by
  have hpn : db.apiKeys.find? (activeKeyMatch (hashApiKey sha pt)) = none := by
    rw [List.find?_eq_none]
    intro r hr hm
    rw [activeKeyMatch, Bool.and_eq_true, beq_iff_eq] at hm
    exact hfresh r hr hm.1
  have hnomatch : ∀ x ∈ db.apiKeys, ¬ activeKeyMatch (hashApiKey sha pt) x = true := by
    intro x hx hm
    rw [activeKeyMatch, Bool.and_eq_true, beq_iff_eq] at hm
    exact hfresh x hx hm.1
  have hf : (db.apiKeys ++ [nk]).find?
      (activeKeyMatch (hashApiKey sha pt)) = some nk := by
    rw [find?_append_of_none _ _ _ hpn]
    simp [List.find?, activeKeyMatch, hmatch, hactive]
  have hupd : updateFirst (activeKeyMatch (hashApiKey sha pt))
      (fun r => { r with last_used := some now }) (db.apiKeys ++ [nk]) =
      db.apiKeys ++ [{ nk with last_used := some now }] := by
    rw [updateFirst_append_of_none _ _ _ _ hnomatch]
    simp [updateFirst, activeKeyMatch, hmatch, hactive]
  have huser' : getUser nk.user_id
      { db with apiKeys := db.apiKeys ++ [nk] } = some u := huser
  simp [validateApiKey, hf, hnexp, huser', huact, hupd]

set_option linter.unusedVariables false in
/-- C10: generating a key for an active user yields a plaintext of the form
`pk_` plus 32 lowercase hex characters; only its hash is stored, and an
immediate validation of the plaintext returns the user's id and stamps the
key's `last_used` with the current time. -/
theorem generate_then_validate (sha : String → String) (username : String)
    (req : APIKeyReq) (randomHex : String) (now : Nat) (db : Db) (u : User)
    (hsha64 : ∀ s, (sha s).data.length = 64)
    (hshahex : ∀ s, ((sha s).data.all (fun c => hexChars.contains c)) = true)
    (hname : findUserByName username db = some u) (hact : u.is_active = true)
    (hid : getUser u.user_id db = some u)
    (hfresh : ∀ r ∈ db.apiKeys,
      r.hashed_key ≠ hashApiKey sha (generateSecureApiKey sha randomHex)) :
    ((generateApiKey sha username req randomHex now db).1.map
        (fun resp => resp.api_key) = some (generateSecureApiKey sha randomHex)) ∧
    (takeChars 3 (generateSecureApiKey sha randomHex) = "pk_" ∧
     ((generateSecureApiKey sha randomHex).data.drop 3).length = 32 ∧
     ((generateSecureApiKey sha randomHex).data.drop 3).all
       (fun c => hexChars.contains c) = true) ∧
    ((validateApiKey sha (generateSecureApiKey sha randomHex) now
        (generateApiKey sha username req randomHex now db).2).1 = some u.user_id) ∧
    ((validateApiKey sha (generateSecureApiKey sha randomHex) now
        (generateApiKey sha username req randomHex now db).2).2.apiKeys.any
      (fun kk => kk.hashed_key ==
          hashApiKey sha (generateSecureApiKey sha randomHex) &&
        kk.last_used == some now) = true) := by
  have hdata : (generateSecureApiKey sha randomHex).data =
      'p' :: 'k' :: '_' :: ((sha (randomHex ++ apiKeySecret)).data.take 32) := rfl
  have hshape1 : takeChars 3 (generateSecureApiKey sha randomHex) = "pk_" := by
    simp only [takeChars, hdata]
    rfl
  have hshape2 : ((generateSecureApiKey sha randomHex).data.drop 3).length = 32 := by
    rw [hdata]
    simp [List.length_take, hsha64]
  have hshape3 : ((generateSecureApiKey sha randomHex).data.drop 3).all
      (fun c => hexChars.contains c) = true := by
    rw [hdata, List.all_eq_true]
    intro c hc
    simp only [List.drop_succ_cons, List.drop_zero] at hc
    exact List.all_eq_true.mp (hshahex (randomHex ++ apiKeySecret)) c
      (List.take_subset _ _ hc)
  have hgen : generateApiKey sha username req randomHex now db =
      (some { api_key := generateSecureApiKey sha randomHex, name := req.name,
              created_at := now,
              expires_at := (match req.expires_in_days with
          | some d => if d != 0 then some (now + d * 86400) else none
          | none => none) },
       { db with apiKeys := (db.apiKeys ++
          [{ id := nextKeyId db,
             hashed_key := hashApiKey sha (generateSecureApiKey sha randomHex),
             user_id := u.user_id, name := req.name, created_at := now,
             expires_at := (match req.expires_in_days with
               | some d => if d != 0 then some (now + d * 86400) else none
               | none => none),
             is_active := true, last_used := none,
             requests_per_minute := some u.requests_per_minute,
             requests_per_hour := some u.requests_per_hour,
             requests_per_day := some u.requests_per_day }]) }) := by
    simp [generateApiKey, hname, hact]
  have hnexp : expiredAt
      { id := nextKeyId db,
        hashed_key := hashApiKey sha (generateSecureApiKey sha randomHex),
        user_id := u.user_id, name := req.name, created_at := now,
        expires_at := (match req.expires_in_days with
          | some d => if d != 0 then some (now + d * 86400) else none
          | none => none),
        is_active := true, last_used := none,
        requests_per_minute := some u.requests_per_minute,
        requests_per_hour := some u.requests_per_hour,
        requests_per_day := some u.requests_per_day } now = false := by
    cases hdays : req.expires_in_days with
    | none => simp [expiredAt]
    | some d =>
      by_cases hd : (d != 0) = true
      · simp only [expiredAt, hdays, hd, if_true, ite_true]
        exact decide_eq_false (by omega)
      · simp [expiredAt, hdays, hd]
  have hvalid := validateApiKey_fresh_append sha
    (generateSecureApiKey sha randomHex) now db
    { id := nextKeyId db,
      hashed_key := hashApiKey sha (generateSecureApiKey sha randomHex),
      user_id := u.user_id, name := req.name, created_at := now,
      expires_at := (match req.expires_in_days with
        | some d => if d != 0 then some (now + d * 86400) else none
        | none => none),
      is_active := true, last_used := none,
      requests_per_minute := some u.requests_per_minute,
      requests_per_hour := some u.requests_per_hour,
      requests_per_day := some u.requests_per_day }
    u rfl rfl hnexp hid hact hfresh
  refine ⟨?_, ⟨hshape1, hshape2, hshape3⟩, ?_, ?_⟩
  · rw [hgen]
    rfl
  · rw [hgen, hvalid]
  · rw [hgen, hvalid]
    simp [List.any_append]

/-- C10 witness: the round-trip evaluated with a concrete 64-hex-char hash
stand-in, a 30-day expiry, and `sampleUser`. -/
theorem generate_then_validate_witness :
    ((generateApiKey sampleSha "alice" { name := "k1", expires_in_days := some 30 }
        "rnd" 100 sampleDb).1.map (fun resp => resp.api_key) =
      some (generateSecureApiKey sampleSha "rnd")) ∧
    (takeChars 3 (generateSecureApiKey sampleSha "rnd") = "pk_" ∧
     ((generateSecureApiKey sampleSha "rnd").data.drop 3).length = 32 ∧
     ((generateSecureApiKey sampleSha "rnd").data.drop 3).all
       (fun c => hexChars.contains c) = true) ∧
    ((validateApiKey sampleSha (generateSecureApiKey sampleSha "rnd") 100
        (generateApiKey sampleSha "alice" { name := "k1", expires_in_days := some 30 }
          "rnd" 100 sampleDb).2).1 = some sampleUser.user_id) ∧
    ((validateApiKey sampleSha (generateSecureApiKey sampleSha "rnd") 100
        (generateApiKey sampleSha "alice" { name := "k1", expires_in_days := some 30 }
          "rnd" 100 sampleDb).2).2.apiKeys.any
      (fun kk => kk.hashed_key ==
          hashApiKey sampleSha (generateSecureApiKey sampleSha "rnd") &&
        kk.last_used == some 100) = true) :=
  generate_then_validate sampleSha "alice" { name := "k1", expires_in_days := some 30 }
    "rnd" 100 sampleDb sampleUser (fun _ => rfl)
    (fun _ => (by decide :
      ((String.mk (List.replicate 64 'a')).data.all
        (fun c => hexChars.contains c)) = true))
    (by decide) (by decide) (by decide)
    (fun r hr => absurd hr (List.not_mem_nil r))

end SAI
